import Mathlib

/-!
Verification of the WendySnipe log-subscription and pool-qualification
pipeline (src/src/core/websocket.rs) against its natural-language
specification.  The Rust source is shallowly embedded: pure decision
functions become Lean functions, the read loop becomes a recursion over
the list of inbound frames, and the impure collaborators (websocket
transport, serde JSON parsing, fresh pubkey generation, wall clock,
ledger RPC) become explicit parameters.  Machine integers (u64) are
modelled as Nat: none of the embedded operations can overflow because
the source only compares and copies them.
-/

namespace WendySnipe

/-- Pool variant tag, from the source's PoolType enum
(websocket.rs:13-17).  PumpFun is the development variant (the spec's
VariantA), DaoFun the production variant (VariantB). -/
inductive PoolType where
  | PumpFun
  | DaoFun
deriving DecidableEq, Repr

/-- Runtime environment tag matched by process_logs
(websocket.rs:100-112).  The source matches an Environment enum with
exactly these two constructors. -/
inductive Environment where
  | Development
  | Production
deriving DecidableEq, Repr

/-- PoolCreationEvent (websocket.rs:19-29).  Pubkey values are modelled
as Nat (their 32-byte content never influences control flow); the i64
timestamp is modelled as Int. -/
structure PoolCreationEvent where
  signature : String
  pool_address : Nat
  token_address : Nat
  holder_count : Nat
  buy_count : Nat
  timestamp : Int
  slot : Nat
  pool_type : PoolType
deriving DecidableEq, Repr

/-- PumpFunCriteria (websocket.rs:31-38): observed counts plus fixed
thresholds. -/
structure PumpFunCriteria where
  holder_count : Nat
  buy_count : Nat
  min_holders : Nat
  min_buys : Nat
  max_buys : Nat
deriving DecidableEq, Repr

/-- Default PumpFunCriteria (websocket.rs:40-50): zero observed counts,
thresholds 140 / 140 / 300. -/
def PumpFunCriteria.default : PumpFunCriteria :=
  { holder_count := 0
    buy_count := 0
    min_holders := 140
    min_buys := 140
    max_buys := 300 }

/-- WebsocketMonitor state (websocket.rs:52-56).  The config is
represented by the only field the embedded code reads from it, the
environment tag (self.config.environment.environment).  token_metrics
is the HashMap field, modelled as an association list; the source holds
it behind a shared reference and, in the embedded code, never reads or
writes it. -/
structure WebsocketMonitor where
  ws_url : String
  environment : Environment
  token_metrics : List (String × PumpFunCriteria)

/-- is_valid_pump_fun_criteria (websocket.rs:180-184): conjunction of
the holder floor, the buy floor and the buy ceiling. -/
def is_valid_pump_fun_criteria (c : PumpFunCriteria) : Bool :=
  decide (c.holder_count ≥ c.min_holders) &&
  decide (c.buy_count ≥ c.min_buys) &&
  decide (c.buy_count ≤ c.max_buys)

/-- holder_check as computed by log_criteria_check (websocket.rs:187). -/
def holder_check (c : PumpFunCriteria) : Bool :=
  decide (c.holder_count ≥ c.min_holders)

/-- buy_check as computed by log_criteria_check (websocket.rs:188). -/
def buy_check (c : PumpFunCriteria) : Bool :=
  decide (c.buy_count ≥ c.min_buys) && decide (c.buy_count ≤ c.max_buys)

/-- Character-list prefix test, the building block of the substring
test below. -/
def isPrefChars : List Char → List Char → Bool
  | [], _ => true
  | _ :: _, [] => false
  | a :: as, b :: bs => a == b && isPrefChars as bs

/-- Substring occurrence on character lists: the pattern occurs as a
contiguous run somewhere in the text. -/
def containsChars (pat : List Char) : List Char → Bool
  | [] => isPrefChars pat []
  | c :: rest => isPrefChars pat (c :: rest) || containsChars pat rest

/-- Embeds Rust str::contains with a literal pattern, as used by
is_create_idempotent (websocket.rs:130-134). -/
def strContains (s pat : String) : Bool :=
  containsChars pat.data s.data

/-- Minimal model of a serde_json Value, with the shapes the embedded
code inspects (objects, arrays, strings, integer numbers; float
payloads never reach a successful as_u64 and are folded into num via
the guard there). -/
inductive Json where
  | null
  | bool (b : Bool)
  | num (n : Int)
  | str (s : String)
  | arr (elems : List Json)
  | obj (fields : List (String × Json))

/-- serde_json Value::get with a string key: field lookup on an object,
None on every other shape. -/
def Json.get : Json → String → Option Json
  | Json.obj fields, key => List.lookup key fields
  | _, _ => none

/-- serde_json Value::as_str. -/
def Json.asStr : Json → Option String
  | Json.str s => some s
  | _ => none

/-- serde_json Value::as_array. -/
def Json.asArr : Json → Option (List Json)
  | Json.arr elems => some elems
  | _ => none

/-- serde_json Value::as_u64: succeeds exactly on integer numbers in
the u64 range. -/
def Json.asU64 : Json → Option Nat
  | Json.num n => if 0 ≤ n ∧ n < 18446744073709551616 then some n.toNat else none
  | _ => none

/-- The idempotent-create marker substring scanned for by
is_create_idempotent (websocket.rs:130). -/
def createMarker : String := "CreateIdempotent"

/-- The first recognized program identifier (websocket.rs:131), the
pump.fun / development variant. -/
def pumpFunProgram : String := "TokenkegQfeZyiNwAJbNbGKPFXCWuBvf9Ss623VQ5DA"

/-- The second recognized program identifier (websocket.rs:134), the
dao.fun / production variant. -/
def daoFunProgram : String := "5jnapfrAN47UYkLkEf7HnprPPBCQLvkYWGZDeKkaP5hv"

/-- The loop body of is_create_idempotent (websocket.rs:128-139): scan
the log entries in order; a non-string entry is skipped; a string entry
containing the marker returns PumpFun if it contains the first program
identifier, else DaoFun if it contains the second, else the scan
continues; None when the scan is exhausted. -/
def classify_logs : List Json → Option PoolType
  | [] => none
  | l :: rest =>
    match Json.asStr l with
    | some s =>
      if strContains s createMarker then
        if strContains s pumpFunProgram then some PoolType.PumpFun
        else if strContains s daoFunProgram then some PoolType.DaoFun
        else classify_logs rest
      else classify_logs rest
    | none => classify_logs rest

/-- is_create_idempotent (websocket.rs:125-145): navigate to
result.logs, require an array, and run the scan; None when the path or
the array is missing. -/
def is_create_idempotent (j : Json) : Option PoolType :=
  match (Json.get j "result").bind (fun r => Json.get r "logs") with
  | some logs =>
    match Json.asArr logs with
    | some entries => classify_logs entries
    | none => none
  | none => none

/-- Values supplied by the impure collaborators invoked inside
extract_pool_creation_event (websocket.rs:226-233): the two
Pubkey::new_unique() results and the Utc::now() timestamp.  None of
them influences control flow. -/
structure ExtCtx where
  freshPool : Nat
  freshToken : Nat
  nowTs : Int

/-- extract_pool_creation_event (websocket.rs:217-245): result.signature
as a string and result.slot as a u64 are mandatory (an anyhow error
when either is missing); pool and token addresses are fresh placeholder
pubkeys; holder and buy counts start at 0. -/
def extract_pool_creation_event (ctx : ExtCtx) (j : Json) (pt : PoolType) :
    Except String (Option PoolCreationEvent) :=
  match ((Json.get j "result").bind (fun r => Json.get r "signature")).bind Json.asStr with
  | none => Except.error "Missing signature"
  | some signature =>
    match ((Json.get j "result").bind (fun r => Json.get r "slot")).bind Json.asU64 with
    | none => Except.error "Missing slot"
    | some slot =>
      Except.ok (some
        { signature := signature
          pool_address := ctx.freshPool
          token_address := ctx.freshToken
          holder_count := 0
          buy_count := 0
          timestamp := ctx.nowTs
          slot := slot
          pool_type := pt })

/-- The external ledger RPC collaborator: a query maps a program
identifier and a token mint to the decoded balances of the returned
accounts.  Passed explicitly to the holder and buy counters so that any
query they issued would be observable; the placeholder bodies issue
none. -/
def LedgerOracle : Type := String → Nat → List Nat

/-- get_holder_count (websocket.rs:247-250).  The source body is the
placeholder Ok(150) marked TODO: it performs no ledger query and —
taking the monitor behind a shared reference — neither reads nor
writes token_metrics.  The oracle and monitor arguments mirror the
collaborator and the self receiver; the body ignores both. -/
def get_holder_count (_ledger : LedgerOracle) (_m : WebsocketMonitor) (_token : Nat) :
    Except String Nat :=
  Except.ok 150

/-- get_buy_count (websocket.rs:252-255): the placeholder Ok(200)
marked TODO, likewise ignoring the collaborator and the receiver. -/
def get_buy_count (_ledger : LedgerOracle) (_m : WebsocketMonitor) (_token : Nat) :
    Except String Nat :=
  Except.ok 200

/-- verify_pump_fun_criteria (websocket.rs:169-178): fetch the two
counts (propagating an error from either) and fill the default
thresholds around them. -/
def verify_pump_fun_criteria (ledger : LedgerOracle) (m : WebsocketMonitor)
    (token : Nat) : Except String PumpFunCriteria :=
  match get_holder_count ledger m token with
  | Except.error e => Except.error e
  | Except.ok hc =>
    match get_buy_count ledger m token with
    | Except.error e => Except.error e
    | Except.ok bc =>
      Except.ok { PumpFunCriteria.default with holder_count := hc, buy_count := bc }

/-- Observable actions of the pipeline: tracing log records and the
handoff of an event to the execution collaborator. -/
inductive Effect where
  | logInfo (s : String)
  | logDebug (s : String)
  | logWarn (s : String)
  | logError (s : String)
  | criteriaLog (token : Nat) (c : PumpFunCriteria)
  | execute (e : PoolCreationEvent)
deriving DecidableEq, Repr

/-- log_criteria_check (websocket.rs:186-215): always emits the
per-check breakdown (carried here as a structured record), plus a
warning when either sub-check fails. -/
def log_criteria_check (token : Nat) (c : PumpFunCriteria) : List Effect :=
  Effect.criteriaLog token c ::
    (if !holder_check c || !buy_check c then
      [Effect.logWarn "Pool creation ignored"]
    else [])

/-- handle_valid_pool_creation (websocket.rs:257-261): the execution
handoff point; its body logs the event and holds the unimplemented
execution TODO, modelled as the single handoff effect. -/
def handle_valid_pool_creation (event : PoolCreationEvent) : List Effect :=
  [Effect.execute event]

/-- handle_pump_fun_creation (websocket.rs:147-159): extract, enrich
via verify_pump_fun_criteria, log the criteria check, and hand off only
when is_valid_pump_fun_criteria passes.  The second component is the
error escalated by the question-mark operator, if any. -/
def handle_pump_fun_creation (ledger : LedgerOracle) (m : WebsocketMonitor)
    (ctx : ExtCtx) (j : Json) : List Effect × Option String :=
  match extract_pool_creation_event ctx j PoolType.PumpFun with
  | Except.error e => ([], some e)
  | Except.ok none => ([], none)
  | Except.ok (some event) =>
    match verify_pump_fun_criteria ledger m event.token_address with
    | Except.error e => ([], some e)
    | Except.ok criteria =>
      (log_criteria_check event.token_address criteria ++
        (if is_valid_pump_fun_criteria criteria then
          Effect.logInfo "Valid pump.fun pool creation detected" ::
            handle_valid_pool_creation event
        else []), none)

/-- handle_dao_fun_creation (websocket.rs:161-167): extract and hand
off unconditionally — no enrichment, no criteria check. -/
def handle_dao_fun_creation (ctx : ExtCtx) (j : Json) :
    List Effect × Option String :=
  match extract_pool_creation_event ctx j PoolType.DaoFun with
  | Except.error e => ([], some e)
  | Except.ok none => ([], none)
  | Except.ok (some event) =>
    (Effect.logInfo ("Valid dao.fun pool creation detected: " ++ toString event.token_address) ::
      handle_valid_pool_creation event, none)

/-- The per-frame body of the read loop (websocket.rs:98-114): classify
the parsed notification, gate on (variant, environment), and dispatch;
mismatched combinations are dropped with a debug record. -/
def handle_notification (ledger : LedgerOracle) (m : WebsocketMonitor)
    (ctx : ExtCtx) (j : Json) : List Effect × Option String :=
  match is_create_idempotent j with
  | none => ([], none)
  | some PoolType.PumpFun =>
    match m.environment with
    | Environment.Development =>
      let r := handle_pump_fun_creation ledger m ctx j
      (Effect.logInfo "Detected pump.fun pool creation in development" :: r.1, r.2)
    | Environment.Production =>
      ([Effect.logDebug "Ignoring pool creation - environment mismatch"], none)
  | some PoolType.DaoFun =>
    match m.environment with
    | Environment.Production =>
      let r := handle_dao_fun_creation ctx j
      (Effect.logInfo "Detected dao.fun pool creation in production" :: r.1, r.2)
    | Environment.Development =>
      ([Effect.logDebug "Ignoring pool creation - environment mismatch"], none)

/-- One inbound item of the read loop: either a transport-level message
error, or a received frame carrying the outcome of the serde_json parse
of its text (none when parsing fails). -/
inductive Frame where
  | ioErr (e : String)
  | msg (parsed : Option Json)

/-- The read loop of process_logs (websocket.rs:95-122) over the list
of inbound items.  A transport error is logged and returned, ending the
loop; a frame whose JSON parse failed is skipped with no record; an
error escalated from a handler ends the loop; end of stream is the
graceful Ok(()). -/
def process_logs (ledger : LedgerOracle) (m : WebsocketMonitor) (ctx : ExtCtx) :
    List Frame → List Effect × Option String
  | [] => ([], none)
  | Frame.ioErr e :: _ =>
    ([Effect.logError ("WebSocket message error: " ++ e)],
      some ("WebSocket error: " ++ e))
  | Frame.msg none :: rest => process_logs ledger m ctx rest
  | Frame.msg (some j) :: rest =>
    let r := handle_notification ledger m ctx j
    match r.2 with
    | some e => (r.1, some e)
    | none =>
      let rr := process_logs ledger m ctx rest
      (r.1 ++ rr.1, rr.2)

/-- subscribe_to_logs (websocket.rs:67-90): one connection attempt whose
failure propagates at once, then the read loop; no retry surrounds
either. -/
def subscribe_to_logs (ledger : LedgerOracle) (m : WebsocketMonitor) (ctx : ExtCtx)
    (conn : Except String (List Frame)) : List Effect × Option String :=
  match conn with
  | Except.error e => ([Effect.logInfo "Connecting to websocket..."], some e)
  | Except.ok frames =>
    let r := process_logs ledger m ctx frames
    (Effect.logInfo "Connecting to websocket..." ::
      Effect.logInfo "WebSocket connected successfully" :: r.1, r.2)

/-- A concrete log line carrying the marker and the pump.fun program
identifier. -/
def pumpLogLine : String :=
  "Program TokenkegQfeZyiNwAJbNbGKPFXCWuBvf9Ss623VQ5DA invoke CreateIdempotent"

/-- A concrete log line carrying the marker and the dao.fun program
identifier. -/
def daoLogLine : String :=
  "Program 5jnapfrAN47UYkLkEf7HnprPPBCQLvkYWGZDeKkaP5hv invoke CreateIdempotent"

/-- A complete pump.fun creation notification: marker line plus the
mandatory signature and slot. -/
def goodPumpJson : Json :=
  Json.obj [("result", Json.obj
    [("signature", Json.str "sig-pump"),
     ("slot", Json.num 42),
     ("logs", Json.arr [Json.str pumpLogLine])])]

/-- A pump.fun creation notification with no signature field. -/
def badPumpJson : Json :=
  Json.obj [("result", Json.obj
    [("slot", Json.num 42),
     ("logs", Json.arr [Json.str pumpLogLine])])]

/-- A complete dao.fun creation notification. -/
def goodDaoJson : Json :=
  Json.obj [("result", Json.obj
    [("signature", Json.str "sig-dao"),
     ("slot", Json.num 43),
     ("logs", Json.arr [Json.str daoLogLine])])]

/-- A development-environment monitor with an empty cache. -/
def mDev : WebsocketMonitor :=
  { ws_url := "wss://example", environment := Environment.Development, token_metrics := [] }

/-- A production-environment monitor with an empty cache. -/
def mProd : WebsocketMonitor :=
  { ws_url := "wss://example", environment := Environment.Production, token_metrics := [] }

/-- Concrete impure-collaborator values for closed evaluations. -/
def ctx0 : ExtCtx := { freshPool := 1, freshToken := 2, nowTs := 0 }

/-- A ledger oracle that answers every query with no accounts. -/
def L0 : LedgerOracle := fun _ _ => []

/-- The ledger oracle of the spec's aggregation example: the legacy
token program returns accounts with balances 5, 0, 2 and the extended
token program returns accounts with balances 0, 0. -/
def exampleOracle : LedgerOracle := fun program _ =>
  if program == pumpFunProgram then [5, 0, 2] else [0, 0]

/-- A dao.fun creation notification with no signature field. -/
def badDaoJson : Json :=
  Json.obj [("result", Json.obj
    [("slot", Json.num 43),
     ("logs", Json.arr [Json.str daoLogLine])])]

end WendySnipe

namespace WendySnipe

/-- Unfolding of the scan step on a string log entry (shared lemma). -/
theorem classify_logs_cons_str (s : String) (rest : List Json) :
    classify_logs (Json.str s :: rest) =
      (if strContains s createMarker then
        if strContains s pumpFunProgram then some PoolType.PumpFun
        else if strContains s daoFunProgram then some PoolType.DaoFun
        else classify_logs rest
      else classify_logs rest) := rfl

/-- Lines without the marker are skipped wholesale (shared lemma). -/
theorem classify_logs_no_marker (ls : List String)
    (h : ∀ s ∈ ls, strContains s createMarker = false) :
    classify_logs (ls.map Json.str) = none := by
  induction ls with
  | nil => rfl
  | cons l rest ih =>
    have hl := h l (List.mem_cons_self l rest)
    rw [List.map_cons, classify_logs_cons_str, hl]
    simp only [Bool.false_eq_true, if_false]
    exact ih fun s hs => h s (List.mem_cons_of_mem _ hs)

/-- With a marker-plus-pump-identifier line present and the dao
identifier absent everywhere, the scan yields PumpFun (shared lemma). -/
theorem classify_logs_pump (ls : List String)
    (hex : ∃ s ∈ ls, strContains s createMarker = true ∧ strContains s pumpFunProgram = true)
    (hdao : ∀ s ∈ ls, strContains s daoFunProgram = false) :
    classify_logs (ls.map Json.str) = some PoolType.PumpFun := by
  induction ls with
  | nil => simp at hex
  | cons l rest ih =>
    rw [List.map_cons, classify_logs_cons_str]
    have hrec : (∃ s ∈ rest, strContains s createMarker = true ∧ strContains s pumpFunProgram = true) →
        classify_logs (rest.map Json.str) = some PoolType.PumpFun :=
      fun hx => ih hx (fun s hs => hdao s (List.mem_cons_of_mem _ hs))
    by_cases hm : strContains l createMarker = true
    · by_cases hp : strContains l pumpFunProgram = true
      · simp [hm, hp]
      · have hd := hdao l (List.mem_cons_self l rest)
        simp only [hm, if_true, eq_false_of_ne_true hp, Bool.false_eq_true, if_false, hd]
        apply hrec
        rcases hex with ⟨w, hw, hwm, hwp⟩
        rcases List.mem_cons.mp hw with h | h
        · exact absurd (h ▸ hwp) hp
        · exact ⟨w, h, hwm, hwp⟩
    · simp only [eq_false_of_ne_true hm, Bool.false_eq_true, if_false]
      apply hrec
      rcases hex with ⟨w, hw, hwm, hwp⟩
      rcases List.mem_cons.mp hw with h | h
      · exact absurd (h ▸ hwm) hm
      · exact ⟨w, h, hwm, hwp⟩

/-- With a marker-plus-dao-identifier line present and the pump
identifier absent everywhere, the scan yields DaoFun (shared lemma). -/
theorem classify_logs_dao (ls : List String)
    (hex : ∃ s ∈ ls, strContains s createMarker = true ∧ strContains s daoFunProgram = true)
    (hpump : ∀ s ∈ ls, strContains s pumpFunProgram = false) :
    classify_logs (ls.map Json.str) = some PoolType.DaoFun := by
  induction ls with
  | nil => simp at hex
  | cons l rest ih =>
    rw [List.map_cons, classify_logs_cons_str]
    have hrec : (∃ s ∈ rest, strContains s createMarker = true ∧ strContains s daoFunProgram = true) →
        classify_logs (rest.map Json.str) = some PoolType.DaoFun :=
      fun hx => ih hx (fun s hs => hpump s (List.mem_cons_of_mem _ hs))
    have hp := hpump l (List.mem_cons_self l rest)
    by_cases hm : strContains l createMarker = true
    · by_cases hd : strContains l daoFunProgram = true
      · simp [hm, hp, hd]
      · simp only [hm, if_true, hp, Bool.false_eq_true, if_false,
          eq_false_of_ne_true hd]
        apply hrec
        rcases hex with ⟨w, hw, hwm, hwd⟩
        rcases List.mem_cons.mp hw with h | h
        · exact absurd (h ▸ hwd) hd
        · exact ⟨w, h, hwm, hwd⟩
    · simp only [eq_false_of_ne_true hm, Bool.false_eq_true, if_false]
      apply hrec
      rcases hex with ⟨w, hw, hwm, hwd⟩
      rcases List.mem_cons.mp hw with h | h
      · exact absurd (h ▸ hwm) hm
      · exact ⟨w, h, hwm, hwd⟩

/-- A run of non-qualifying lines in front does not affect the scan
(shared lemma). -/
theorem classify_logs_skip (pre : List String) (tail : List Json)
    (h : ∀ s ∈ pre, strContains s createMarker = false ∨
          (strContains s pumpFunProgram = false ∧ strContains s daoFunProgram = false)) :
    classify_logs (pre.map Json.str ++ tail) = classify_logs tail := by
  induction pre with
  | nil => rfl
  | cons l rest ih =>
    rw [List.map_cons, List.cons_append, classify_logs_cons_str]
    have hrest : classify_logs (rest.map Json.str ++ tail) = classify_logs tail :=
      ih fun s hs => h s (List.mem_cons_of_mem _ hs)
    rcases h l (List.mem_cons_self l rest) with hm | ⟨hp, hd⟩
    · rw [hm]
      simpa using hrest
    · by_cases hm : strContains l createMarker = true
      · simp only [hm, if_true, hp, hd, Bool.false_eq_true, if_false]
        exact hrest
      · simp only [eq_false_of_ne_true hm, Bool.false_eq_true, if_false]
        exact hrest

end WendySnipe

namespace WendySnipe

/-- Valid iff both sub-checks hold (shared lemma). -/
theorem is_valid_eq_checks (c : PumpFunCriteria) :
    is_valid_pump_fun_criteria c = (holder_check c && buy_check c) := by
  simp [is_valid_pump_fun_criteria, holder_check, buy_check, Bool.and_assoc]

/-- C2: with thresholds min_holders = 140, min_buys = 140,
max_buys = 300, the criteria check computes holder_ok as
holder_count >= min_holders and buy_ok as
min_buys <= buy_count <= max_buys and passes iff both hold; holder
count 139 fails and 140 passes the holder check, and buy counts in
[140, 300] pass while 139 and 301 fail the buy check. -/
theorem C2_criteria_evaluation :
    (∀ c : PumpFunCriteria,
      is_valid_pump_fun_criteria c = (holder_check c && buy_check c)) ∧
    (∀ h b : Nat,
      is_valid_pump_fun_criteria
          { PumpFunCriteria.default with holder_count := h, buy_count := b } = true ↔
        (140 ≤ h ∧ 140 ≤ b ∧ b ≤ 300)) ∧
    (∀ b : Nat,
      holder_check { PumpFunCriteria.default with holder_count := 139, buy_count := b } = false) ∧
    (∀ b : Nat,
      holder_check { PumpFunCriteria.default with holder_count := 140, buy_count := b } = true) ∧
    (∀ h b : Nat, 140 ≤ b → b ≤ 300 →
      buy_check { PumpFunCriteria.default with holder_count := h, buy_count := b } = true) ∧
    (∀ h : Nat,
      buy_check { PumpFunCriteria.default with holder_count := h, buy_count := 139 } = false) ∧
    (∀ h : Nat,
      buy_check { PumpFunCriteria.default with holder_count := h, buy_count := 301 } = false) := by
  refine ⟨is_valid_eq_checks, ?_, ?_, ?_, ?_, ?_, ?_⟩
  · intro h b
    simp [is_valid_pump_fun_criteria, PumpFunCriteria.default, and_assoc]
  · intro b
    simp [holder_check, PumpFunCriteria.default]
  · intro b
    simp [holder_check, PumpFunCriteria.default]
  · intro h b h1 h2
    simp [buy_check, PumpFunCriteria.default, h1, h2]
  · intro h
    simp [buy_check, PumpFunCriteria.default]
  · intro h
    simp [buy_check, PumpFunCriteria.default]

/-- Witness for C2 at concrete boundary inputs. -/
theorem C2_criteria_evaluation_witness :
    (is_valid_pump_fun_criteria
        { PumpFunCriteria.default with holder_count := 140, buy_count := 140 } = true) ∧
    (140 ≤ 200 ∧ 200 ≤ 300 ∧
      buy_check { PumpFunCriteria.default with holder_count := 0, buy_count := 200 } = true) :=
  ⟨(C2_criteria_evaluation.2.1 140 140).mpr ⟨by decide, by decide, by decide⟩,
   by decide, by decide,
   C2_criteria_evaluation.2.2.2.2.1 0 200 (by decide) (by decide)⟩

/-- C3: a notification whose log lines pair the idempotent-create
marker with exactly one of the two known program identifiers classifies
as the corresponding variant (marker plus pump.fun identifier gives
PumpFun, marker plus dao.fun identifier gives DaoFun); with no marker
anywhere the classifier returns none; and when several lines qualify,
the first qualifying line in order decides, regardless of later
lines. -/
theorem C3_classifier :
    (∀ ls : List String, (∀ s ∈ ls, strContains s createMarker = false) →
      classify_logs (ls.map Json.str) = none) ∧
    (∀ ls : List String,
      (∃ s ∈ ls, strContains s createMarker = true ∧ strContains s pumpFunProgram = true) →
      (∀ s ∈ ls, strContains s daoFunProgram = false) →
      classify_logs (ls.map Json.str) = some PoolType.PumpFun) ∧
    (∀ ls : List String,
      (∃ s ∈ ls, strContains s createMarker = true ∧ strContains s daoFunProgram = true) →
      (∀ s ∈ ls, strContains s pumpFunProgram = false) →
      classify_logs (ls.map Json.str) = some PoolType.DaoFun) ∧
    (∀ (pre : List String) (l : String) (rest : List String),
      (∀ s ∈ pre, strContains s createMarker = false ∨
        (strContains s pumpFunProgram = false ∧ strContains s daoFunProgram = false)) →
      strContains l createMarker = true →
      ((strContains l pumpFunProgram = true →
        classify_logs ((pre ++ l :: rest).map Json.str) = some PoolType.PumpFun) ∧
       (strContains l pumpFunProgram = false → strContains l daoFunProgram = true →
        classify_logs ((pre ++ l :: rest).map Json.str) = some PoolType.DaoFun))) := by
  refine ⟨classify_logs_no_marker, classify_logs_pump, classify_logs_dao, ?_⟩
  intro pre l rest hpre hm
  rw [List.map_append, classify_logs_skip pre _ hpre, List.map_cons, classify_logs_cons_str, hm]
  constructor
  · intro hp
    simp [hp]
  · intro hp hd
    simp [hp, hd]

/-- Witness for C3 on concrete notifications, including a
tie-break input where a later line carries the other identifier. -/
theorem C3_classifier_witness :
    classify_logs (["nothing to see"].map Json.str) = none ∧
    classify_logs ([pumpLogLine].map Json.str) = some PoolType.PumpFun ∧
    classify_logs ([daoLogLine].map Json.str) = some PoolType.DaoFun ∧
    classify_logs ((["noise"] ++ daoLogLine :: [pumpLogLine]).map Json.str) =
      some PoolType.DaoFun :=
  ⟨C3_classifier.1 ["nothing to see"] (by decide),
   C3_classifier.2.1 [pumpLogLine] (by decide) (by decide),
   C3_classifier.2.2.1 [daoLogLine] (by decide) (by decide),
   (C3_classifier.2.2.2 ["noise"] daoLogLine [pumpLogLine] (by decide) (by decide)).2
     (by decide) (by decide)⟩

end WendySnipe

namespace WendySnipe

/-- C1: claimed reconnect-with-linear-backoff does not exist: the read
loop exits on the very first transport error.  At a stream of five
consecutive transport failures the supervisor logs and returns the
first error at once — zero reconnects, zero backoff sleeps, no attempt
counter and no MaxRetriesExceeded outcome, where the claim predicts
five reconnects with delays 5000..25000 ms. -/
theorem C1_counterexample :
    process_logs L0 mDev ctx0
        [Frame.ioErr "e1", Frame.ioErr "e2", Frame.ioErr "e3",
         Frame.ioErr "e4", Frame.ioErr "e5"] =
      ([Effect.logError "WebSocket message error: e1"],
        some "WebSocket error: e1") := rfl

/-- C1 (amended): on any read or connect transport error the
supervisor fails permanently at once — the read error is logged and
returned with no retry, no attempt counter and no backoff, so frames
after the first failure are never consumed and a second consecutive
failure cannot occur within one run. -/
theorem C1_amended_no_retry :
    (∀ (L : LedgerOracle) (m : WebsocketMonitor) (ctx : ExtCtx) (e : String)
        (rest : List Frame),
      process_logs L m ctx (Frame.ioErr e :: rest) =
        ([Effect.logError ("WebSocket message error: " ++ e)],
          some ("WebSocket error: " ++ e))) ∧
    (∀ (L : LedgerOracle) (m : WebsocketMonitor) (ctx : ExtCtx) (e : String),
      subscribe_to_logs L m ctx (Except.error e) =
        ([Effect.logInfo "Connecting to websocket..."], some e)) :=
  ⟨fun _ _ _ _ _ => rfl, fun _ _ _ _ => rfl⟩

/-- C4: an event classified PumpFun under a production-tagged runtime,
or DaoFun under a development-tagged runtime, is dropped with only a
debug record: no criteria evaluation, no execution handoff, no
error. -/
theorem C4_environment_gate :
    ∀ (L : LedgerOracle) (m : WebsocketMonitor) (ctx : ExtCtx) (j : Json),
      (is_create_idempotent j = some PoolType.PumpFun →
        m.environment = Environment.Production →
        (handle_notification L m ctx j =
          ([Effect.logDebug "Ignoring pool creation - environment mismatch"], none) ∧
         (∀ ev, Effect.execute ev ∉ (handle_notification L m ctx j).1) ∧
         (∀ t c, Effect.criteriaLog t c ∉ (handle_notification L m ctx j).1))) ∧
      (is_create_idempotent j = some PoolType.DaoFun →
        m.environment = Environment.Development →
        (handle_notification L m ctx j =
          ([Effect.logDebug "Ignoring pool creation - environment mismatch"], none) ∧
         (∀ ev, Effect.execute ev ∉ (handle_notification L m ctx j).1) ∧
         (∀ t c, Effect.criteriaLog t c ∉ (handle_notification L m ctx j).1))) := by
  intro L m ctx j
  constructor
  · intro h1 h2
    have heq : handle_notification L m ctx j =
        ([Effect.logDebug "Ignoring pool creation - environment mismatch"], none) := by
      simp [handle_notification, h1, h2]
    refine ⟨heq, ?_, ?_⟩
    · intro ev
      rw [heq]
      simp
    · intro t c
      rw [heq]
      simp
  · intro h1 h2
    have heq : handle_notification L m ctx j =
        ([Effect.logDebug "Ignoring pool creation - environment mismatch"], none) := by
      simp [handle_notification, h1, h2]
    refine ⟨heq, ?_, ?_⟩
    · intro ev
      rw [heq]
      simp
    · intro t c
      rw [heq]
      simp

/-- Witness for C4: a concrete pump.fun notification under a
production monitor and a concrete dao.fun notification under a
development monitor are both dropped with the debug record only. -/
theorem C4_environment_gate_witness :
    handle_notification L0 mProd ctx0 goodPumpJson =
      ([Effect.logDebug "Ignoring pool creation - environment mismatch"], none) ∧
    handle_notification L0 mDev ctx0 goodDaoJson =
      ([Effect.logDebug "Ignoring pool creation - environment mismatch"], none) :=
  ⟨((C4_environment_gate L0 mProd ctx0 goodPumpJson).1 (by decide) rfl).1,
   ((C4_environment_gate L0 mDev ctx0 goodDaoJson).2 (by decide) rfl).1⟩

end WendySnipe

namespace WendySnipe

/-- C7: claimed per-item isolation does not hold: a notification that
classifies and passes the gate but lacks the mandatory signature field
aborts the whole read loop.  At a concrete two-frame stream whose first
frame is such a notification, the loop terminates with the extraction
error escalated to a connection-level failure, the second frame is
never processed, and no log record of the classification error is
emitted. -/
theorem C7_counterexample :
    process_logs L0 mDev ctx0
        [Frame.msg (some badPumpJson), Frame.msg (some goodPumpJson)] =
      ([Effect.logInfo "Detected pump.fun pool creation in development"],
        some "Missing signature") := rfl

/-- C7 (amended): when a classified, environment-matching notification
is missing its signature or slot, the extraction error propagates as a
connection-level failure: the read loop terminates with that error,
subsequent frames are not processed, and the loop emits no log record
for the error. -/
theorem C7_amended_extraction_error_fatal :
    ∀ (L : LedgerOracle) (m : WebsocketMonitor) (ctx : ExtCtx) (j : Json)
        (e : String) (rest : List Frame),
      (is_create_idempotent j = some PoolType.PumpFun →
        m.environment = Environment.Development →
        extract_pool_creation_event ctx j PoolType.PumpFun = Except.error e →
        process_logs L m ctx (Frame.msg (some j) :: rest) =
          ([Effect.logInfo "Detected pump.fun pool creation in development"], some e)) ∧
      (is_create_idempotent j = some PoolType.DaoFun →
        m.environment = Environment.Production →
        extract_pool_creation_event ctx j PoolType.DaoFun = Except.error e →
        process_logs L m ctx (Frame.msg (some j) :: rest) =
          ([Effect.logInfo "Detected dao.fun pool creation in production"], some e)) := by
  intro L m ctx j e rest
  constructor
  · intro h1 h2 h3
    simp [process_logs, handle_notification, h1, h2, handle_pump_fun_creation, h3]
  · intro h1 h2 h3
    simp [process_logs, handle_notification, h1, h2, handle_dao_fun_creation, h3]

/-- Witness for C7 (amended) at concrete signature-less pump.fun and
dao.fun notifications. -/
theorem C7_amended_extraction_error_fatal_witness :
    process_logs L0 mDev ctx0 [Frame.msg (some badPumpJson)] =
      ([Effect.logInfo "Detected pump.fun pool creation in development"],
        some "Missing signature") ∧
    process_logs L0 mProd ctx0 [Frame.msg (some badDaoJson)] =
      ([Effect.logInfo "Detected dao.fun pool creation in production"],
        some "Missing signature") :=
  ⟨(C7_amended_extraction_error_fatal L0 mDev ctx0 badPumpJson "Missing signature" []).1
      (by decide) rfl rfl,
   (C7_amended_extraction_error_fatal L0 mProd ctx0 badDaoJson "Missing signature" []).2
      (by decide) rfl rfl⟩

/-- C9: claimed no-silent-swallowing does not hold: an inbound text
frame whose JSON parse fails is dropped with no log record of any
kind — at a concrete one-frame stream of such a frame the loop emits
zero effects and ends gracefully. -/
theorem C9_counterexample :
    process_logs L0 mDev ctx0 [Frame.msg none] = ([], none) := rfl

/-- C9 (amended): transport message errors are logged before the loop
terminates, but an inbound text frame that fails JSON parsing is
dropped silently, contributing no log record at all. -/
theorem C9_amended_logging :
    (∀ (L : LedgerOracle) (m : WebsocketMonitor) (ctx : ExtCtx) (rest : List Frame),
      process_logs L m ctx (Frame.msg none :: rest) = process_logs L m ctx rest) ∧
    (∀ (L : LedgerOracle) (m : WebsocketMonitor) (ctx : ExtCtx) (e : String)
        (rest : List Frame),
      (process_logs L m ctx (Frame.ioErr e :: rest)).1 =
        [Effect.logError ("WebSocket message error: " ++ e)]) :=
  ⟨fun _ _ _ _ => rfl, fun _ _ _ _ _ => rfl⟩

end WendySnipe

namespace WendySnipe

/-- Every successfully extracted event starts with zero holder and buy
counts, carries the requested pool type and the fresh token address
(shared lemma). -/
theorem extract_event_shape (ctx : ExtCtx) (j : Json) (pt : PoolType)
    (ev : PoolCreationEvent)
    (h : extract_pool_creation_event ctx j pt = Except.ok (some ev)) :
    ev.holder_count = 0 ∧ ev.buy_count = 0 ∧ ev.pool_type = pt ∧
      ev.token_address = ctx.freshToken := by
  unfold extract_pool_creation_event at h
  split at h
  · simp at h
  · split at h
    · simp at h
    · rw [Except.ok.injEq, Option.some.injEq] at h
      subst h
      exact ⟨rfl, rfl, rfl, rfl⟩

/-- C8: a dao.fun notification under a production runtime whose
envelope carries signature and slot is handed to the execution
collaborator unconditionally — the event keeps its unenriched zero
holder and buy counts and no criteria-check record is emitted; the
criteria check belongs only to the pump.fun path. -/
theorem C8_dao_unconditional :
    ∀ (L : LedgerOracle) (m : WebsocketMonitor) (ctx : ExtCtx) (j : Json)
        (ev : PoolCreationEvent),
      is_create_idempotent j = some PoolType.DaoFun →
      m.environment = Environment.Production →
      extract_pool_creation_event ctx j PoolType.DaoFun = Except.ok (some ev) →
      (handle_notification L m ctx j =
        ([Effect.logInfo "Detected dao.fun pool creation in production",
          Effect.logInfo ("Valid dao.fun pool creation detected: " ++ toString ev.token_address),
          Effect.execute ev], none) ∧
       ev.holder_count = 0 ∧ ev.buy_count = 0 ∧
       (∀ t c, Effect.criteriaLog t c ∉ (handle_notification L m ctx j).1)) := by
  intro L m ctx j ev h1 h2 h3
  have hshape := extract_event_shape ctx j PoolType.DaoFun ev h3
  have heq : handle_notification L m ctx j =
      ([Effect.logInfo "Detected dao.fun pool creation in production",
        Effect.logInfo ("Valid dao.fun pool creation detected: " ++ toString ev.token_address),
        Effect.execute ev], none) := by
    simp [handle_notification, h1, h2, handle_dao_fun_creation, h3, handle_valid_pool_creation]
  refine ⟨heq, hshape.1, hshape.2.1, ?_⟩
  intro t c
  rw [heq]
  simp

/-- Witness for C8 at a concrete complete dao.fun notification. -/
theorem C8_dao_unconditional_witness :
    handle_notification L0 mProd ctx0 goodDaoJson =
      ([Effect.logInfo "Detected dao.fun pool creation in production",
        Effect.logInfo "Valid dao.fun pool creation detected: 2",
        Effect.execute
          { signature := "sig-dao", pool_address := 1, token_address := 2,
            holder_count := 0, buy_count := 0, timestamp := 0, slot := 43,
            pool_type := PoolType.DaoFun }], none) :=
  (C8_dao_unconditional L0 mProd ctx0 goodDaoJson
      { signature := "sig-dao", pool_address := 1, token_address := 2,
        holder_count := 0, buy_count := 0, timestamp := 0, slot := 43,
        pool_type := PoolType.DaoFun }
      (by decide) rfl rfl).1

/-- C10: the placeholder collaborators return 150 holders and 200 buys
for every token, those values satisfy the default 140/140/300
thresholds, and hence every pump.fun notification that classifies,
passes the development gate and carries signature and slot is judged
valid and handed to execution. -/
theorem C10_placeholder_always_valid :
    (∀ (L : LedgerOracle) (m : WebsocketMonitor) (t : Nat),
      get_holder_count L m t = Except.ok 150) ∧
    (∀ (L : LedgerOracle) (m : WebsocketMonitor) (t : Nat),
      get_buy_count L m t = Except.ok 200) ∧
    is_valid_pump_fun_criteria
      { holder_count := 150, buy_count := 200, min_holders := 140,
        min_buys := 140, max_buys := 300 } = true ∧
    (∀ (L : LedgerOracle) (m : WebsocketMonitor) (ctx : ExtCtx) (j : Json)
        (ev : PoolCreationEvent),
      is_create_idempotent j = some PoolType.PumpFun →
      m.environment = Environment.Development →
      extract_pool_creation_event ctx j PoolType.PumpFun = Except.ok (some ev) →
      handle_notification L m ctx j =
        ([Effect.logInfo "Detected pump.fun pool creation in development",
          Effect.criteriaLog ev.token_address
            { holder_count := 150, buy_count := 200, min_holders := 140,
              min_buys := 140, max_buys := 300 },
          Effect.logInfo "Valid pump.fun pool creation detected",
          Effect.execute ev], none)) := by
  refine ⟨fun _ _ _ => rfl, fun _ _ _ => rfl, by decide, ?_⟩
  intro L m ctx j ev h1 h2 h3
  simp [handle_notification, h1, h2, handle_pump_fun_creation, h3,
    verify_pump_fun_criteria, get_holder_count, get_buy_count,
    PumpFunCriteria.default, log_criteria_check, is_valid_pump_fun_criteria,
    holder_check, buy_check, handle_valid_pool_creation]

/-- Witness for C10 at a concrete complete pump.fun notification. -/
theorem C10_placeholder_always_valid_witness :
    handle_notification L0 mDev ctx0 goodPumpJson =
      ([Effect.logInfo "Detected pump.fun pool creation in development",
        Effect.criteriaLog 2
          { holder_count := 150, buy_count := 200, min_holders := 140,
            min_buys := 140, max_buys := 300 },
        Effect.logInfo "Valid pump.fun pool creation detected",
        Effect.execute
          { signature := "sig-pump", pool_address := 1, token_address := 2,
            holder_count := 0, buy_count := 0, timestamp := 0, slot := 42,
            pool_type := PoolType.PumpFun }], none) :=
  C10_placeholder_always_valid.2.2.2 L0 mDev ctx0 goodPumpJson
    { signature := "sig-pump", pool_address := 1, token_address := 2,
      holder_count := 0, buy_count := 0, timestamp := 0, slot := 42,
      pool_type := PoolType.PumpFun }
    (by decide) rfl rfl

/-- C5: the claimed two-query positive-balance aggregation does not
exist: get_holder_count is the placeholder Ok(150).  It returns 150
for every token, its result does not depend on the ledger collaborator
(no query is issued), and at the claim's own example — legacy balances
5, 0, 2 and extended balances 0, 0 — it returns 150, not the claimed
2. -/
theorem C5_holder_count_placeholder :
    (∀ (L : LedgerOracle) (m : WebsocketMonitor) (t : Nat),
      get_holder_count L m t = Except.ok 150) ∧
    (∀ (L L2 : LedgerOracle) (m : WebsocketMonitor) (t : Nat),
      get_holder_count L m t = get_holder_count L2 m t) ∧
    get_holder_count exampleOracle mDev 7 = Except.ok 150 ∧
    (Except.ok 150 : Except String Nat) ≠ Except.ok 2 :=
  ⟨fun _ _ _ => rfl, fun _ _ _ _ => rfl, rfl, by simp⟩

/-- C6: the claimed query-once-then-cache behavior does not exist:
get_holder_count is a constant function — its result is independent of
the ledger collaborator (zero queries on every call, not one pair on
the first), independent of the token_metrics content (no cache read),
and the monitor is held behind a shared reference so no cache write
channel exists; two successive calls observably do exactly the same
nothing. -/
theorem C6_no_cache_no_queries :
    (∀ (L L2 : LedgerOracle) (m m2 : WebsocketMonitor) (t : Nat),
      get_holder_count L m t = get_holder_count L2 m2 t) ∧
    get_holder_count L0 mDev 7 = Except.ok 150 ∧
    get_holder_count L0
      { mDev with token_metrics := [("7", PumpFunCriteria.default)] } 7 =
      Except.ok 150 :=
  ⟨fun _ _ _ _ _ => rfl, rfl, rfl⟩

end WendySnipe
